import Mathlib

/-!
# Verification of the PF-GUGUBot message-relay core

Shallow embedding of the message-dispatch logic of the GUGUbot repository:

* `gugubot/logic/system/basic_system.py`  (`BasicSystem`)
* `gugubot/logic/system/echo.py`          (`EchoSystem`)
* `gugubot/logic/system/bound_notice.py`  (`BoundNoticeSystem`)
* `gugubot/logic/plugins/cross_broadcast.py` (`CrossBroadcastSystem`)

Python methods become pure Lean functions.  Calls to external collaborators
(connector manager, translation provider, player lookup, the outbound
`broadcast_processed_info` send) are modelled through an `Env` record of
functions; fallible calls return `Except String` values, a `.error` standing
for a raised Python exception.  Every dispatch-level function returns a
`RunResult` that records the list of attempted `broadcast_processed_info`
calls (in order), the post-state of the system, whether `config.save()` was
invoked, and the outcome (`.ok handled` or an escaped exception).
-/

namespace GUGUbot

/-- Python-dict update `{**d, k: v}` on an association list: replace the value
at an existing key in place, otherwise append the new pair. -/
def alistSet {α : Type} (l : List (String × α)) (k : String) (v : α) :
    List (String × α) :=
  if l.any (fun p => p.1 = k) then
    l.map (fun p => if p.1 = k then (p.1, v) else p)
  else l ++ [(k, v)]

/-! Python string primitives, implemented by structural recursion over the
underlying character list so that every definition evaluates inside the
kernel. -/

/-- The whitespace characters Python's `str.strip()` removes (ASCII part). -/
def pyIsSpace (c : Char) : Bool :=
  c = ' ' || c = '\t' || c = '\n' || c = '\r' || c = '\u000b' || c = '\u000c'

/-- Python `str.strip()`. -/
def pyStrip (s : String) : String :=
  ⟨((s.data.dropWhile pyIsSpace).reverse.dropWhile pyIsSpace).reverse⟩

/-- Python `str.startswith(pre)`. -/
def pyStartsWith (s pre : String) : Bool :=
  pre.data.isPrefixOf s.data

/-- Python slicing `s[n:]` (by characters). -/
def pyDrop (s : String) (n : Nat) : String :=
  ⟨s.data.drop n⟩

/-- Python `len(s)` (in characters). -/
def pyLength (s : String) : Nat :=
  s.data.length

/-- Python falsiness of a string: empty. -/
def pyIsEmpty (s : String) : Bool :=
  s.data.isEmpty

/-- Python `str.isdigit()`: non-empty and all characters are digits. -/
def pyIsDigit (s : String) : Bool :=
  !s.data.isEmpty && s.data.all Char.isDigit

/-- Remove the first occurrence of `pat` from the list (helper for
Python's `str.replace(pat, "", 1)`). -/
def removeFirstList (pat : List Char) : List Char → List Char
  | [] => []
  | c :: cs =>
    if pat.isPrefixOf (c :: cs) then (c :: cs).drop pat.length
    else c :: removeFirstList pat cs

/-- Python `s.replace(pat, "", 1)`: remove the first occurrence of `pat`
(identity when `pat` is empty, as in Python with an empty replacement). -/
def pyRemoveFirst (s pat : String) : String :=
  if pat.data.isEmpty then s else ⟨removeFirstList pat.data s.data⟩

/-- One message segment: `{"type": ..., "data": {...}}`
(`gugubot.utils.types`; wire shape per spec §6).  `data` is an association
list standing for the Python dict. -/
structure Segment where
  type : String
  data : List (String × String)
deriving DecidableEq, Repr

/-- `MessageBuilder.text` (external `gugubot.builder`).
Modelled from the spec: segment wire shape `{type: "text", data: {text: s}}`. -/
def MessageBuilder.text (s : String) : Segment :=
  ⟨"text", [("text", s)]⟩

/-- `MessageBuilder.at` (external `gugubot.builder`).
Modelled from the spec: a mention segment for the given sender id. -/
def MessageBuilder.at (id : String) : Segment :=
  ⟨"at", [("qq", id)]⟩

/-- `message[0].get("data", {}).get("text", "")`. -/
def segText (s : Segment) : String :=
  (s.data.lookup "text").getD ""

/-- Text of the first segment of a message; the `[]` case is unreachable at
all use sites (the source indexes `message[0]` only after checking the list
is non-empty). -/
def firstText : List Segment → String
  | [] => ""
  | s :: _ => segText s

/-- `Source` (external `gugubot.utils.types`): origin identity object
exposing an `origin` label and an `is_from(platformName)` predicate
(spec §3).  `is_from` is kept abstract as a Boolean predicate field. -/
structure Source where
  origin : String
  is_from : String → Bool

/-- Inbound envelope `BroadcastInfo` (spec §3).  Opaque passthrough fields
(`raw`, `server`, `logger`) are modelled as opaque string tokens. -/
structure BroadcastInfo where
  event_type : String
  message : List Segment
  source : Source
  source_id : Option String
  receiver_source : Option String
  receiver : Option String
  sender : Option String
  sender_id : Option String
  is_admin : Bool
  event_sub_type : String
  raw : String
  server : String
  logger : String
  target : List (String × String)

/-- Outbound envelope `ProcessedInfo` (spec §3).  `target` maps connector
names to the `event_sub_type` under which to deliver. -/
structure ProcessedInfo where
  processed_message : List Segment
  source : Source
  source_id : Option String
  sender : Option String
  sender_id : Option String
  receiver : Option String := none
  raw : String
  server : String
  logger : String
  event_sub_type : String
  target : List (String × String) := []

/-- Connector descriptor (external, consumed read-only; spec §2/§6).
`source` is the connector's name attribute (`c.source` in `echo.py`). -/
structure Connector where
  source : String
  enable : Bool
  enable_send : Bool
  enable_receive : Bool
deriving DecidableEq, Repr

/-- Per-system entry of the config's `system` section: the optional
`enable` key. -/
structure SystemEntry where
  enable : Option Bool := none
deriving DecidableEq, Repr

/-- `BotConfig` (external `gugubot.config.BotConfig`).
Modelled from the spec (§6): a key-path reader over the configuration keys
this core consumes; `none` stands for an absent key so that `get` /
`get_keys` defaults apply. -/
structure BotConfig where
  command_prefix : Option String := none
  group_admin : Option Bool := none
  admin_group_ids : Option (List String) := none
  qq_source_name : Option String := none
  mc_source_name : Option String := none
  bridge_source_name : Option String := none
  mc_command : Option String := none
  qq_command : Option String := none
  system_section : List (String × SystemEntry) := []
deriving DecidableEq, Repr

/-- `config.get("GUGUBot", {}).get("command_prefix", "#")`. -/
def BotConfig.commandPrefix (cfg : BotConfig) : String :=
  cfg.command_prefix.getD "#"

/-- `config.get_keys(["system", name, "enable"], default)`. -/
def BotConfig.systemEnable (cfg : BotConfig) (name : String) (dflt : Bool) : Bool :=
  match cfg.system_section.lookup name with
  | some e => e.enable.getD dflt
  | none => dflt

/-- The names a `broadcast_processed_info` call restricts delivery to:
`include=[...]` or `exclude=[...]`. -/
inductive TargetSpec where
  | incl (names : List String)
  | excl (names : List String)
deriving DecidableEq, Repr

/-- One attempted `broadcast_processed_info(processedInfo, include/exclude)`
call. -/
structure Call where
  pinfo : ProcessedInfo
  targeting : TargetSpec

/-- External collaborators (spec §6): connector manager, outbound send,
translation provider, player lookup.  `get_connector` may raise
(`.error`), and `broadcastFails p t = some e` means the send for that
envelope raises `e`. -/
structure Env where
  connectors : List Connector
  get_connector : String → Except String (Option Connector)
  broadcastFails : ProcessedInfo → TargetSpec → Option String
  tr : String → String
  get_player : String → String → Option Unit

/-- Mutable per-system state: `BasicSystem.name`, `BasicSystem.enable`,
`BasicSystem.config` (possibly absent). -/
structure SysState where
  name : String
  enable : Bool
  config : Option BotConfig

/-- Result of running one (possibly effectful) system method: the attempted
outbound calls in order, the post-state, whether `config.save()` ran, and
the outcome (`.error` = an exception escaped the method). -/
structure RunResult (α : Type) where
  calls : List Call := []
  st : SysState
  saved : Bool := false
  out : Except String α

/-- `BasicSystem.__init__` lines 44-48: the `enable` flag a freshly
constructed system reads from the given configuration. -/
def init_enable (name : String) (dflt : Bool) : Option BotConfig → Bool
  | none => dflt
  | some cfg => cfg.systemEnable name dflt

/-- `broadcast_info.receiver_source or broadcast_info.source.origin`
(`echo.py` line 72, `cross_broadcast.py` line 36): Python `or` treats
`None` and `""` as falsy. -/
def effectiveSource (bi : BroadcastInfo) : String :=
  match bi.receiver_source with
  | some s => if pyIsEmpty s then bi.source.origin else s
  | none => bi.source.origin

/-- `basic_system.py` line 144: `source_id` if truthy and all digits, else
the origin label. -/
def target_key (bi : BroadcastInfo) : String :=
  match bi.source_id with
  | some s => if pyIsDigit s then s else bi.source.origin
  | none => bi.source.origin

/-- `BasicSystem.is_command` (`basic_system.py` lines 75-109).  The config
access on line 100 raises `AttributeError` when `self.config` is `None`. -/
def is_command (st : SysState) (bi : BroadcastInfo) : Except String Bool :=
  if bi.event_type ≠ "message" then .ok false
  else match bi.message with
  | [] => .ok false
  | first :: _ =>
    if first.type ≠ "text" then .ok false
    else
      let content := segText first
      match st.config with
      | none => .error "AttributeError: NoneType has no attribute get"
      | some cfg =>
        if !pyStartsWith content cfg.commandPrefix then .ok false
        else if cfg.group_admin.getD false && !bi.is_admin then .ok false
        else .ok true

/-- `BasicSystem.create_processed_info` (`basic_system.py` lines 111-139):
a field-for-field copy of the inbound envelope. -/
def create_processed_info (bi : BroadcastInfo) : ProcessedInfo :=
  { processed_message := bi.message
    source := bi.source
    source_id := bi.source_id
    sender := bi.sender
    sender_id := bi.sender_id
    receiver := bi.receiver
    raw := bi.raw
    server := bi.server
    logger := bi.logger
    event_sub_type := bi.event_sub_type
    target := bi.target }

/-- `BasicSystem.reply` (`basic_system.py` lines 141-175).  Builds the reply
envelope, computes its `target` map, and attempts one
`broadcast_processed_info(..., include=[receiver_source or origin])` call.
Accessing `self.config.get_keys` raises when `config` is `None`. -/
def reply (st : SysState) (env : Env) (bi : BroadcastInfo)
    (message : List Segment) : RunResult Unit :=
  match st.config with
  | none => { st := st, out := .error "AttributeError: NoneType has no attribute get_keys" }
  | some cfg =>
    let origin_source := bi.source.origin
    let target_source := target_key bi
    let target0 : List (String × String) := [(target_source, bi.event_sub_type)]
    let bridge_name := cfg.bridge_source_name.getD "Bridge"
    let target :=
      if bi.receiver_source == some bridge_name && !bi.source.is_from bridge_name then
        alistSet target0 bridge_name bi.event_sub_type
      else target0
    let respond : ProcessedInfo :=
      { processed_message := message
        source := bi.source
        source_id := bi.source_id
        sender := some (env.tr "gugubot.bot_name")
        sender_id := none
        raw := bi.raw
        server := bi.server
        logger := bi.logger
        event_sub_type := bi.event_sub_type
        target := target }
    let receiver_source :=
      match bi.receiver_source with
      | some s => if pyIsEmpty s then origin_source else s
      | none => origin_source
    let spec := TargetSpec.incl [receiver_source]
    match env.broadcastFails respond spec with
    | some e => { calls := [⟨respond, spec⟩], st := st, out := .error e }
    | none => { calls := [⟨respond, spec⟩], st := st, out := .ok () }

/-- `BasicSystem.get_tr` (`basic_system.py` lines 177-188), with the style
manager / server translator resolved into the single provider `env.tr`. -/
def get_tr (env : Env) (sysName key : String) (globalKey : Bool) : String :=
  env.tr (if globalKey then key else "gugubot.system." ++ sysName ++ "." ++ key)

/-- `BasicSystem._save_enable_state` (`basic_system.py` lines 236-242):
skip when there is no config object or the `system` section has no entry
for this system; otherwise write the flag into the entry and `save()`.
Returns the configuration as persisted plus whether `save()` ran. -/
def save_enable_state (name : String) (enable : Bool) :
    Option BotConfig → Option BotConfig × Bool
  | none => (none, false)
  | some cfg =>
    if (cfg.system_section.lookup name).isSome then
      (some { cfg with
              system_section := cfg.system_section.map
                (fun p => if p.1 = name then (p.1, { p.2 with enable := some enable }) else p) },
       true)
    else (some cfg, false)

/-- `BasicSystem._handle_switch` (`basic_system.py` lines 228-234): set the
in-memory flag, attempt to persist, send the localized confirmation reply,
return `True` (or let the reply's exception escape). -/
def handle_switch (st : SysState) (env : Env) (bi : BroadcastInfo)
    (enable : Bool) : RunResult Bool :=
  let st1 := { st with enable := enable }
  let (cfg', saved) := save_enable_state st1.name enable st1.config
  let st2 := { st1 with config := cfg' }
  let msg := MessageBuilder.text
    (get_tr env st2.name (if enable then "gugubot.enable_success" else "gugubot.disable_success") true)
  let r := reply st2 env bi [msg]
  { calls := r.calls, st := r.st, saved := saved, out := r.out.map (fun _ => true) }

/-- `BasicSystem.handle_enable_disable` (`basic_system.py` lines 190-226):
recognize `<prefix><localizedSystemName> <enable|disable>` typed by an
admin and switch on a match. -/
def handle_enable_disable (st : SysState) (env : Env) (bi : BroadcastInfo) :
    RunResult Bool :=
  match is_command st bi with
  | .error e => { st := st, out := .error e }
  | .ok false => { st := st, out := .ok false }
  | .ok true =>
    if !bi.is_admin then { st := st, out := .ok false }
    else
      match st.config with
      | none => { st := st, out := .error "AttributeError: NoneType has no attribute get" }
      | some cfg =>
        let command0 := firstText bi.message
        let system_name := get_tr env st.name "name" false
        let command1 := pyStrip (pyRemoveFirst command0 cfg.commandPrefix)
        if !pyStartsWith command1 system_name then { st := st, out := .ok false }
        else
          let command2 := pyStrip (pyRemoveFirst command1 system_name)
          let enable_cmd := get_tr env st.name "gugubot.enable" true
          let disable_cmd := get_tr env st.name "gugubot.disable" true
          if command2 = enable_cmd || command2 = disable_cmd then
            handle_switch st env bi (command2 == enable_cmd)
          else { st := st, out := .ok false }

/-- `EchoSystem.process_broadcast_info` lines 71-94 (spec §4.2 steps 6-7):
resolve and look up the effective source connector (outside the `try`
block), drop when it exists with `enable_send == False`, otherwise build
the relay envelope and broadcast with
`exclude=[source] ++ [c.source | not c.enable_receive]`; an exception from
the broadcast itself is caught by the `except` and yields `False`. -/
def echo_relay (env : Env) (bi : BroadcastInfo) :
    List Call × Except String Bool :=
  let source_name := effectiveSource bi
  match env.get_connector source_name with
  | .error e => ([], .error e)
  | .ok sc =>
    if (match sc with | some c => !c.enable_send | none => false) then
      ([], .ok false)
    else
      let pinfo := create_processed_info bi
      let exclude_sources :=
        source_name ::
          (env.connectors.filter (fun c => !c.enable_receive)).map (·.source)
      let spec := TargetSpec.excl exclude_sources
      match env.broadcastFails pinfo spec with
      | some _ => ([⟨pinfo, spec⟩], .ok false)
      | none => ([⟨pinfo, spec⟩], .ok true)

/-- `EchoSystem.process_broadcast_info` (`echo.py` lines 31-94):
enable/disable command, enable gate, QQ-private drop, QQ-admin-group drop,
event-type gate, then the relay phase `echo_relay`. -/
def echo_process (st : SysState) (env : Env) (bi : BroadcastInfo) :
    RunResult Bool :=
  let h := handle_enable_disable st env bi
  match h.out with
  | .error e => { calls := h.calls, st := h.st, saved := h.saved, out := .error e }
  | .ok true => { calls := h.calls, st := h.st, saved := h.saved, out := .ok true }
  | .ok false =>
    let st := h.st
    if !st.enable then
      { calls := h.calls, st := st, saved := h.saved, out := .ok false }
    else if bi.source.is_from "QQ" && bi.event_sub_type == "private" then
      { calls := h.calls, st := st, saved := h.saved, out := .ok false }
    else
      let adminDrop : Except String Bool :=
        if bi.source.is_from "QQ" && bi.event_sub_type == "group" then
          match st.config with
          | none => .error "AttributeError: NoneType has no attribute get_keys"
          | some cfg =>
            let ids := (cfg.admin_group_ids.getD []).filter (fun i => !pyIsEmpty i)
            .ok (match bi.source_id with
                 | some s => !pyIsEmpty s && ids.contains s
                 | none => false)
        else .ok false
      match adminDrop with
      | .error e => { calls := h.calls, st := st, saved := h.saved, out := .error e }
      | .ok true => { calls := h.calls, st := st, saved := h.saved, out := .ok false }
      | .ok false =>
        if bi.event_type ≠ "message" then
          { calls := h.calls, st := st, saved := h.saved, out := .ok false }
        else
          let (cs, r) := echo_relay env bi
          { calls := h.calls ++ cs, st := st, saved := h.saved, out := r }

/-- `CrossBroadcastSystem._strip_command` (`cross_broadcast.py` lines
56-68): slice the command's length off the first segment's raw text and
trim; keep the (otherwise deep-copied) tail; drop the first segment on an
empty remainder; substitute a single one-space text segment if the whole
sequence becomes empty.  The `[]` case is unreachable (the source indexes
`message[0]`; both call sites have checked the message is non-empty). -/
def strip_command : List Segment → String → List Segment
  | [], _ => []
  | first :: rest, command =>
    let first_text := segText first
    let remaining_text := pyStrip (pyDrop first_text (pyLength command))
    let result :=
      if pyIsEmpty remaining_text then rest
      else { type := first.type, data := alistSet first.data "text" remaining_text } :: rest
    if result.isEmpty then [⟨"text", [("text", " ")]⟩] else result

/-- The `ProcessedInfo` literal built by
`CrossBroadcastSystem._broadcast_to_mc` / `_broadcast_to_qq`
(`cross_broadcast.py` lines 77-87 and 100-110): inbound metadata with the
stripped message; `receiver` and `target` keep their defaults. -/
def cross_pinfo (bi : BroadcastInfo) (msg : List Segment) : ProcessedInfo :=
  { processed_message := msg
    source := bi.source
    source_id := bi.source_id
    sender := bi.sender
    sender_id := bi.sender_id
    raw := bi.raw
    server := bi.server
    logger := bi.logger
    event_sub_type := bi.event_sub_type }

/-- `CrossBroadcastSystem._broadcast_to_mc` / `_broadcast_to_qq`
(`cross_broadcast.py` lines 70-114), parametrized by the target connector
name: return `False` when the target connector is missing or its `enable`
flag is off, otherwise send with `include=[targetName]` and return `True`;
there is no `try`, so a raised send escapes. -/
def cross_send (st : SysState) (env : Env) (bi : BroadcastInfo)
    (msg : List Segment) (targetName : String) : RunResult Bool :=
  match env.get_connector targetName with
  | .error e => { st := st, out := .error e }
  | .ok none => { st := st, out := .ok false }
  | .ok (some c) =>
    if !c.enable then { st := st, out := .ok false }
    else
      let p := cross_pinfo bi msg
      let spec := TargetSpec.incl [targetName]
      match env.broadcastFails p spec with
      | some e => { calls := [⟨p, spec⟩], st := st, out := .error e }
      | none => { calls := [⟨p, spec⟩], st := st, out := .ok true }

/-- `CrossBroadcastSystem.process_broadcast_info` (`cross_broadcast.py`
lines 27-54): event-type / first-segment / enable gates, then the `#mc`
branch (QQ source) and the `!!qq` branch (Minecraft source). -/
def cross_process (st : SysState) (env : Env) (bi : BroadcastInfo) :
    RunResult Bool :=
  if bi.event_type ≠ "message" then { st := st, out := .ok false }
  else match bi.message with
  | [] => { st := st, out := .ok false }
  | first :: _ =>
    if first.type ≠ "text" then { st := st, out := .ok false }
    else if !st.enable then { st := st, out := .ok false }
    else
      match st.config with
      | none => { st := st, out := .error "AttributeError: NoneType has no attribute get_keys" }
      | some cfg =>
        let text := pyStrip (segText first)
        let source_name := effectiveSource bi
        let qq_source := cfg.qq_source_name.getD "QQ"
        let mc_source := cfg.mc_source_name.getD "Minecraft"
        let mc_cmd := cfg.commandPrefix ++ cfg.mc_command.getD "mc"
        if source_name = qq_source && pyStartsWith text mc_cmd then
          cross_send st env bi (strip_command bi.message mc_cmd) mc_source
        else
          let qq_cmd := cfg.qq_command.getD "!!qq"
          if source_name = mc_source && pyStartsWith text qq_cmd then
            cross_send st env bi (strip_command bi.message qq_cmd) qq_source
          else { st := st, out := .ok false }

/-- `BoundNoticeSystem._check_and_notify` (`bound_notice.py` lines 57-100):
skip on missing sender id, admin sender, or admin-group source; otherwise
query the player lookup and, when unbound, send the mention + reminder
reply; always end with `return False` (a raised reply escapes). -/
def check_and_notify (st : SysState) (env : Env) (bi : BroadcastInfo) :
    RunResult Bool :=
  let senderId := bi.sender_id.getD ""
  if pyIsEmpty senderId then { st := st, out := .ok false }
  else if bi.is_admin then { st := st, out := .ok false }
  else
    let adminDrop : Except String Bool :=
      match bi.source_id with
      | some s =>
        if pyIsEmpty s then .ok false
        else match st.config with
          | none => .error "AttributeError: NoneType has no attribute get_keys"
          | some cfg =>
            let ids := (cfg.admin_group_ids.getD []).filter (fun i => !pyIsEmpty i)
            .ok (ids.contains s)
      | none => .ok false
    match adminDrop with
    | .error e => { st := st, out := .error e }
    | .ok true => { st := st, out := .ok false }
    | .ok false =>
      match env.get_player senderId bi.source.origin with
      | some _ => { st := st, out := .ok false }
      | none =>
        match st.config with
        | none => { st := st, out := .error "AttributeError: NoneType has no attribute get" }
        | some _cfg =>
          let notice := get_tr env st.name "notice_message" false
          let r := reply st env bi [MessageBuilder.at senderId, MessageBuilder.text notice]
          { calls := r.calls, st := r.st, saved := r.saved,
            out := r.out.map (fun _ => false) }

/-- `BoundNoticeSystem.process_broadcast_info` (`bound_notice.py` lines
31-55): event-type and empty-message gates, enable/disable command, enable
and collaborator gates, then `_check_and_notify`.  `boundPresent` models
whether `self.bound_system` has been injected. -/
def bound_process (st : SysState) (env : Env) (bi : BroadcastInfo)
    (boundPresent : Bool) : RunResult Bool :=
  if bi.event_type ≠ "message" then { st := st, out := .ok false }
  else if bi.message.isEmpty then { st := st, out := .ok false }
  else
    let h := handle_enable_disable st env bi
    match h.out with
    | .error e => { calls := h.calls, st := h.st, saved := h.saved, out := .error e }
    | .ok true => { calls := h.calls, st := h.st, saved := h.saved, out := .ok true }
    | .ok false =>
      let st := h.st
      if !st.enable || !boundPresent then
        { calls := h.calls, st := st, saved := h.saved, out := .ok false }
      else
        let r := check_and_notify st env bi
        { calls := h.calls ++ r.calls, st := r.st, saved := r.saved, out := r.out }

/-! ## Helper lemmas -/

/-- `handle_enable_disable` either raises, declines without side effects, or
delegates to `_handle_switch`. -/
lemma hed_cases (st : SysState) (env : Env) (bi : BroadcastInfo) :
    (∃ e, handle_enable_disable st env bi = { st := st, out := .error e }) ∨
    handle_enable_disable st env bi = { st := st, out := .ok false } ∨
    ∃ v, handle_enable_disable st env bi = handle_switch st env bi v := by
  unfold handle_enable_disable
  rcases h : is_command st bi with e | b
  · exact .inl ⟨e, rfl⟩
  · cases b
    · exact .inr (.inl rfl)
    · simp only []
      split
      · exact .inr (.inl rfl)
      · rcases hc : st.config with _ | cfg
        · exact .inl ⟨_, rfl⟩
        · simp only []
          split
          · exact .inr (.inl rfl)
          · split
            · exact .inr (.inr ⟨_, rfl⟩)
            · exact .inr (.inl rfl)

/-- `_handle_switch` never reports "not handled": its outcome is `.ok true`
or an escaped exception. -/
lemma handle_switch_out (st : SysState) (env : Env) (bi : BroadcastInfo)
    (v : Bool) (b : Bool) (h : (handle_switch st env bi v).out = .ok b) :
    b = true := by
  unfold handle_switch at h
  simp only [] at h
  rcases hr : (reply { st with
      enable := v,
      config := (save_enable_state st.name v st.config).1 } env bi _).out with e | u
  · rw [hr] at h; simp [Except.map] at h
  · rw [hr] at h; simp [Except.map] at h; simp [h]

/-- A run of `handle_enable_disable` that reports "not handled" performed no
outbound calls, kept the state, and saved nothing. -/
lemma hed_not_handled (st : SysState) (env : Env) (bi : BroadcastInfo)
    (h : (handle_enable_disable st env bi).out = .ok false) :
    (handle_enable_disable st env bi).calls = [] ∧
    (handle_enable_disable st env bi).st = st ∧
    (handle_enable_disable st env bi).saved = false := by
  rcases hed_cases st env bi with ⟨e, he⟩ | he | ⟨v, he⟩
  · rw [he] at h; simp at h
  · rw [he]; exact ⟨rfl, rfl, rfl⟩
  · rw [he] at h
    have := handle_switch_out st env bi v false h
    simp at this

/-- Mapping a constant function over an `Except` fixes the `.ok` payload. -/
lemma exceptMapConst_ok {α : Type} (c : Bool) (e : Except String α) (b : Bool)
    (h : e.map (fun _ => c) = .ok b) : b = c := by
  cases e with
  | error e => simp [Except.map] at h
  | ok a => simp [Except.map] at h; exact h.symm

/-- `_check_and_notify` never returns `True`: any `.ok` outcome is `False`. -/
lemma check_and_notify_out (st : SysState) (env : Env) (bi : BroadcastInfo)
    (b : Bool) (h : (check_and_notify st env bi).out = .ok b) : b = false := by
  simp only [check_and_notify] at h
  repeat' split at h
  all_goals
    first
    | exact (Except.ok.inj h).symm
    | exact exceptMapConst_ok _ _ _ h
    | simp at h

/-! ## Shared concrete fixtures for witnesses and counterexamples -/

/-- A configuration with every key absent: all spec §6 defaults apply. -/
def exCfg : BotConfig := {}

/-- A source whose `is_from` is label equality with origin `"QQ"`. -/
def exSrcQQ : Source := ⟨"QQ", fun n => n == "QQ"⟩

/-- Two healthy connectors named `"QQ"` and `"Minecraft"`. -/
def exConnectors : List Connector :=
  [⟨"QQ", true, true, true⟩, ⟨"Minecraft", true, true, true⟩]

/-- A translation provider giving the localized names and keywords the
enable/disable handler consults. -/
def exTr : String → String := fun k =>
  if k = "gugubot.system.echo.name" then "echo"
  else if k = "gugubot.system.bound_notice.name" then "bound_notice"
  else if k = "gugubot.enable" then "enable"
  else if k = "gugubot.disable" then "disable"
  else k

/-- A healthy environment: lookups succeed, sends never raise, no player is
bound. -/
def exEnv : Env :=
  { connectors := exConnectors
    get_connector := fun n => .ok (exConnectors.find? (fun c => c.source = n))
    broadcastFails := fun _ _ => none
    tr := exTr
    get_player := fun _ _ => none }

/-- An ordinary non-admin group chat message `"hello"` from QQ. -/
def exBi : BroadcastInfo :=
  { event_type := "message"
    message := [MessageBuilder.text "hello"]
    source := exSrcQQ
    source_id := some "777"
    receiver_source := none
    receiver := none
    sender := some "alice"
    sender_id := some "42"
    is_admin := false
    event_sub_type := "group"
    raw := "raw", server := "server", logger := "logger"
    target := [] }

/-- The Bound-Notice system, enabled, with the default configuration. -/
def exStBound : SysState := ⟨"bound_notice", true, some exCfg⟩

/-- An admin typing the Bound-Notice disable command. -/
def exBiBoundSwitch : BroadcastInfo :=
  { exBi with message := [MessageBuilder.text "#bound_notice disable"], is_admin := true }

/-! ## C1 -/

/-- C1 (counterexample): Bound-Notice's dispatch does NOT return `false` for
every inbound `BroadcastInfo`: on an admin `#bound_notice disable` command
it handles the enable/disable toggle (`bound_notice.py` lines 47-49) and
returns `true`. -/
theorem C1_counterexample :
    (bound_process exStBound exEnv exBiBoundSwitch true).out = .ok true := by
  rfl

/-- C1 (amended): for every inbound `BroadcastInfo` that the shared
enable/disable command handler does not claim, Bound-Notice's dispatch
never reports the message as handled — regardless of whether it sent a
reminder, whether the sender is bound, or what the message contains. -/
theorem C1_bound_notice_never_handles (st : SysState) (env : Env)
    (bi : BroadcastInfo) (bp : Bool)
    (h : (handle_enable_disable st env bi).out = .ok false) :
    (bound_process st env bi bp).out ≠ .ok true := by
  intro hc
  simp only [bound_process, h] at hc
  split at hc
  · simp at hc
  · split at hc
    · simp at hc
    · split at hc
      · simp at hc
      · have := check_and_notify_out _ _ _ _ hc
        simp at this

/-- C1 (witness): on an unbound player's plain message the reminder reply
is issued (one outbound call) and the dispatch still reports "not
handled". -/
theorem C1_witness :
    (handle_enable_disable exStBound exEnv exBi).out = .ok false ∧
    (bound_process exStBound exEnv exBi true).calls.length = 1 ∧
    (bound_process exStBound exEnv exBi true).out ≠ .ok true :=
  ⟨rfl, rfl, C1_bound_notice_never_handles exStBound exEnv exBi true rfl⟩

/-- With the enable/disable handler declining and a config present, an Echo
dispatch either stops early (no calls, `False`) or hands over to the relay
phase of steps 6-7. -/
lemma echo_structure (st : SysState) (env : Env) (bi : BroadcastInfo)
    (cfg : BotConfig) (hcfg : st.config = some cfg)
    (hhed : (handle_enable_disable st env bi).out = .ok false) :
    echo_process st env bi = { calls := [], st := st, saved := false, out := .ok false } ∨
    echo_process st env bi =
      { calls := (echo_relay env bi).1, st := st, saved := false,
        out := (echo_relay env bi).2 } := by
  obtain ⟨hcalls, hst, hsaved⟩ := hed_not_handled st env bi hhed
  rcases her : echo_relay env bi with ⟨cs, r⟩
  simp only [echo_process, hhed, hst, hcalls, hsaved, her, hcfg]
  split
  · exact .inl rfl
  · split
    · exact .inl rfl
    · split
      · rename_i heq
        split at heq <;> simp at heq
      · exact .inl rfl
      · split
        · exact .inl rfl
        · exact .inr (by simp)

/-- Given a successful source-connector lookup, the relay phase never lets
an exception escape, and a failing send surfaces as "not handled". -/
lemma echo_relay_ok (env : Env) (bi : BroadcastInfo) (conn : Option Connector)
    (hgc : env.get_connector (effectiveSource bi) = .ok conn) :
    (∃ b, (echo_relay env bi).2 = .ok b) ∧
    ((∀ p t, env.broadcastFails p t ≠ none) → (echo_relay env bi).2 ≠ .ok true) := by
  simp only [echo_relay]
  rw [hgc]
  simp only []
  split
  · exact ⟨⟨false, rfl⟩, fun _ => by simp⟩
  · split
    · exact ⟨⟨false, rfl⟩, fun _ => by simp⟩
    · rename_i hnone
      exact ⟨⟨true, rfl⟩, fun hall => absurd hnone (hall _ _)⟩

/-- When the effective source connector exists with `enable_send == False`,
the relay phase returns immediately: no call, not handled. -/
lemma echo_relay_send_gate (env : Env) (bi : BroadcastInfo) (c : Connector)
    (hgc : env.get_connector (effectiveSource bi) = .ok (some c))
    (hs : c.enable_send = false) :
    echo_relay env bi = ([], .ok false) := by
  simp only [echo_relay]
  rw [hgc]
  simp [hs]

/-- If the relay phase attempted a call, it was the single step-7 relay:
the copied envelope, excluded exactly the effective source and the
non-receiving connectors. -/
lemma echo_relay_call (env : Env) (bi : BroadcastInfo) (call : Call)
    (h : (echo_relay env bi).1 = [call]) :
    call = ⟨create_processed_info bi,
      .excl (effectiveSource bi ::
        (env.connectors.filter (fun c => !c.enable_receive)).map (·.source))⟩ := by
  simp only [echo_relay] at h
  rcases hgc : env.get_connector (effectiveSource bi) with e | sc
  · rw [hgc] at h; simp at h
  · rw [hgc] at h
    simp only [] at h
    split at h
    · simp at h
    · split at h <;> simp at h <;> exact h.symm

/-! ## C2 -/

/-- The Echo system, enabled, with the default configuration. -/
def exStEcho : SysState := ⟨"echo", true, some exCfg⟩

/-- An environment whose connector lookup raises. -/
def exEnvBoom : Env := { exEnv with get_connector := fun _ => .error "boom" }

/-- An environment whose outbound sends always raise. -/
def exEnvSendFail : Env :=
  { exEnv with broadcastFails := fun _ _ => some "net down" }

/-- C2 (counterexample): an exception raised while looking up the effective
source connector (spec step 6) is NOT caught: `echo.py` line 73 sits
outside the `try` block, so the exception propagates out of Echo's
dispatch. -/
theorem C2_counterexample :
    (echo_process exStEcho exEnvBoom exBi).out = .error "boom" := by
  rfl

/-- C2 (amended): once the effective-source connector lookup returns, any
failure in the guarded step-7 region (envelope construction and broadcast)
is caught inside Echo's dispatch: the outcome is a boolean, and if every
send raises, the dispatch reports "not handled" rather than `true`. -/
theorem C2_echo_contains_relay_failures (st : SysState) (env : Env)
    (bi : BroadcastInfo) (cfg : BotConfig) (conn : Option Connector)
    (hcfg : st.config = some cfg)
    (hhed : (handle_enable_disable st env bi).out = .ok false)
    (hgc : env.get_connector (effectiveSource bi) = .ok conn) :
    (∃ b, (echo_process st env bi).out = .ok b) ∧
    ((∀ p t, env.broadcastFails p t ≠ none) →
      (echo_process st env bi).out ≠ .ok true) := by
  obtain h | h := echo_structure st env bi cfg hcfg hhed
  · rw [h]
    exact ⟨⟨false, rfl⟩, fun _ => by simp⟩
  · rw [h]
    obtain ⟨h1, h2⟩ := echo_relay_ok env bi conn hgc
    exact ⟨h1, h2⟩

/-- C2 (witness): with every send raising, Echo's dispatch on an ordinary
relayable message still returns (`.ok false`) instead of propagating. -/
theorem C2_witness :
    (echo_process exStEcho exEnvSendFail exBi).out = .ok false ∧
    (echo_process exStEcho exEnvSendFail exBi).out ≠ .ok true :=
  ⟨rfl,
   (C2_echo_contains_relay_failures exStEcho exEnvSendFail exBi exCfg
      (some ⟨"QQ", true, true, true⟩) rfl rfl rfl).2
     (fun _ _ h => Option.noConfusion h)⟩

/-! ## C3 -/

/-- An environment where the QQ connector has `enable_send = false`. -/
def exEnvNoSend : Env :=
  { exEnv with
    connectors := [⟨"QQ", true, false, true⟩, ⟨"Minecraft", true, true, true⟩]
    get_connector := fun n =>
      .ok (([⟨"QQ", true, false, true⟩, ⟨"Minecraft", true, true, true⟩] :
        List Connector).find? (fun c => c.source = n)) }

/-- An admin typing the Echo disable command. -/
def exBiEchoSwitch : BroadcastInfo :=
  { exBi with message := [MessageBuilder.text "#echo disable"], is_admin := true }

/-- C3 (counterexample): with the effective source connector present and
`enable_send = false`, Echo's dispatch can still return `true` and issue a
`broadcast_processed_info` call: an admin `#echo disable` command is
handled by the enable/disable path, which sends the confirmation reply
before the send gate is ever consulted. -/
theorem C3_counterexample :
    exEnvNoSend.get_connector (effectiveSource exBiEchoSwitch)
      = .ok (some ⟨"QQ", true, false, true⟩) ∧
    (echo_process exStEcho exEnvNoSend exBiEchoSwitch).out = .ok true ∧
    (echo_process exStEcho exEnvNoSend exBiEchoSwitch).calls.length = 1 := by
  exact ⟨rfl, rfl, rfl⟩

/-- C3 (amended): for every inbound message that the enable/disable handler
does not claim, if the effective source connector exists with
`enable_send == false`, Echo performs zero `broadcast_processed_info`
calls and returns `false`. -/
theorem C3_echo_send_gate_drops_entirely (st : SysState) (env : Env)
    (bi : BroadcastInfo) (cfg : BotConfig) (c : Connector)
    (hcfg : st.config = some cfg)
    (hhed : (handle_enable_disable st env bi).out = .ok false)
    (hgc : env.get_connector (effectiveSource bi) = .ok (some c))
    (hs : c.enable_send = false) :
    (echo_process st env bi).out = .ok false ∧
    (echo_process st env bi).calls = [] := by
  obtain h | h := echo_structure st env bi cfg hcfg hhed
  · rw [h]; exact ⟨rfl, rfl⟩
  · rw [h, echo_relay_send_gate env bi c hgc hs]
    exact ⟨rfl, rfl⟩

/-- C3 (witness): an ordinary message from a send-disabled source is
dropped entirely — no call, not handled. -/
theorem C3_witness :
    exEnvNoSend.get_connector (effectiveSource exBi)
      = .ok (some ⟨"QQ", true, false, true⟩) ∧
    (echo_process exStEcho exEnvNoSend exBi).out = .ok false ∧
    (echo_process exStEcho exEnvNoSend exBi).calls = [] :=
  ⟨rfl,
   (C3_echo_send_gate_drops_entirely exStEcho exEnvNoSend exBi exCfg
      ⟨"QQ", true, false, true⟩ rfl rfl rfl rfl).1,
   (C3_echo_send_gate_drops_entirely exStEcho exEnvNoSend exBi exCfg
      ⟨"QQ", true, false, true⟩ rfl rfl rfl rfl).2⟩

/-! ## C4 -/

/-- C4: whenever Echo relays (exactly one outbound call, with the
enable/disable handler not claiming the message), the envelope is the
direct copy `create_processed_info bi` of the inbound message and
metadata, and the exclusion list contains exactly the effective source
connector and the connectors with `enable_receive == false` — every other
connector is delivered to. -/
theorem C4_echo_relay_targets (st : SysState) (env : Env)
    (bi : BroadcastInfo) (call : Call)
    (hhed : (handle_enable_disable st env bi).out = .ok false)
    (hcall : (echo_process st env bi).calls = [call]) :
    (call.pinfo = create_processed_info bi ∧
     call.pinfo.processed_message = bi.message ∧
     call.pinfo.source_id = bi.source_id ∧
     call.pinfo.sender = bi.sender ∧
     call.pinfo.sender_id = bi.sender_id ∧
     call.pinfo.event_sub_type = bi.event_sub_type ∧
     call.pinfo.raw = bi.raw) ∧
    ∃ l, call.targeting = .excl l ∧
      effectiveSource bi ∈ l ∧
      (∀ c ∈ env.connectors, c.enable_receive = false → c.source ∈ l) ∧
      (∀ n ∈ l, n = effectiveSource bi ∨
        ∃ c ∈ env.connectors, c.source = n ∧ c.enable_receive = false) := by
  have hrel : (echo_relay env bi).1 = [call] := by
    rcases hed_not_handled st env bi hhed with ⟨hcalls, hst, hsaved⟩
    have : (echo_process st env bi).calls = (handle_enable_disable st env bi).calls ++ (echo_relay env bi).1 ∨
        (echo_process st env bi).calls = (handle_enable_disable st env bi).calls := by
      simp only [echo_process, hhed]
      split
      · exact .inr rfl
      · split
        · exact .inr rfl
        · split
          · exact .inr rfl
          · exact .inr rfl
          · split
            · exact .inr rfl
            · rcases her : echo_relay env bi with ⟨cs, r⟩
              simp [her]
    rcases this with h' | h'
    · rw [hcall, hcalls] at h'; simpa using h'.symm
    · rw [hcall, hcalls] at h'; simp at h'
  have hc := echo_relay_call env bi call hrel
  subst hc
  refine ⟨⟨rfl, rfl, rfl, rfl, rfl, rfl, rfl⟩, _, rfl, ?_, ?_, ?_⟩
  · exact List.mem_cons_self _ _
  · intro c hc hr
    refine List.mem_cons_of_mem _ ?_
    exact List.mem_map_of_mem _ (List.mem_filter.mpr ⟨hc, by simp [hr]⟩)
  · intro n hn
    rcases List.mem_cons.mp hn with h' | h'
    · exact .inl h'
    · rcases List.mem_map.mp h' with ⟨c, hcf, hcs⟩
      rcases List.mem_filter.mp hcf with ⟨hcm, hcr⟩
      exact .inr ⟨c, hcm, hcs, by simpa using hcr⟩

/-- An environment where the Minecraft connector has
`enable_receive = false`. -/
def exEnvRecvOff : Env :=
  { exEnv with
    connectors := [⟨"QQ", true, true, true⟩, ⟨"Minecraft", true, true, false⟩] }

/-- The relay call Echo issues in `exEnvRecvOff` on `exBi`: the copied
envelope, excluding the source `"QQ"` and the receive-disabled
`"Minecraft"`. -/
def exCallRecvOff : Call :=
  ⟨create_processed_info exBi, .excl ["QQ", "Minecraft"]⟩

/-- C4 (witness): on a concrete relay with one receive-disabled connector,
the single call carries the copied envelope and excludes exactly the
source plus that connector. -/
theorem C4_witness :
    (echo_process exStEcho exEnvRecvOff exBi).calls = [exCallRecvOff] ∧
    exCallRecvOff.pinfo = create_processed_info exBi ∧
    exCallRecvOff.targeting = .excl ["QQ", "Minecraft"] :=
  ⟨rfl,
   ((C4_echo_relay_targets exStEcho exEnvRecvOff exBi exCallRecvOff rfl rfl).1).1,
   rfl⟩

/-! ## C5 -/

/-- Behaviour of `_broadcast_to_mc` / `_broadcast_to_qq` under a successful
lookup and non-raising sends: one `include=[targetName]` call and `True`
when the target exists and is enabled (its `enable_send` / `enable_receive`
flags are never consulted); otherwise no call and `False`. -/
lemma cross_send_spec (st : SysState) (env : Env) (bi : BroadcastInfo)
    (msg : List Segment) (targetName : String) (conn : Option Connector)
    (hgc : env.get_connector targetName = .ok conn)
    (hok : ∀ p t, env.broadcastFails p t = none) :
    match conn with
    | some c =>
      if c.enable then
        cross_send st env bi msg targetName =
          { calls := [⟨cross_pinfo bi msg, .incl [targetName]⟩],
            st := st, saved := false, out := .ok true }
      else cross_send st env bi msg targetName = { st := st, out := .ok false }
    | none => cross_send st env bi msg targetName = { st := st, out := .ok false } := by
  rcases conn with _ | c
  · show cross_send st env bi msg targetName = { st := st, out := .ok false }
    unfold cross_send
    rw [hgc]
  · by_cases hc : c.enable
    · simp only [hc, if_true]
      unfold cross_send
      rw [hgc]
      simp [hc, hok]
    · simp only [eq_false_of_ne_true hc, if_false]
      unfold cross_send
      rw [hgc]
      simp [hc]

/-- Under the `#mc` match conditions, the Cross-Broadcast dispatch is
exactly the `_broadcast_to_mc` call on the stripped message. -/
lemma cross_reaches_mc (st : SysState) (env : Env) (bi : BroadcastInfo)
    (cfg : BotConfig) (first : Segment) (rest : List Segment)
    (hcfg : st.config = some cfg)
    (hen : st.enable = true)
    (het : bi.event_type = "message")
    (hmsg : bi.message = first :: rest)
    (hty : first.type = "text")
    (hsrc : effectiveSource bi = cfg.qq_source_name.getD "QQ")
    (hpre : pyStartsWith (pyStrip (segText first))
      (cfg.commandPrefix ++ cfg.mc_command.getD "mc") = true) :
    cross_process st env bi =
      cross_send st env bi
        (strip_command bi.message (cfg.commandPrefix ++ cfg.mc_command.getD "mc"))
        (cfg.mc_source_name.getD "Minecraft") := by
  simp only [cross_process, het, hmsg, hty, hcfg, hen]
  simp [hsrc, hpre, hmsg]

/-- C5: a message matched by Cross-Broadcast (QQ source, first text segment
starting with the `#mc` command) is relayed to exactly the single named
Minecraft connector — never the source, never a third connector; the
dispatch returns `true` iff that connector exists with `enable == true`,
and returns `false` with no call otherwise, regardless of the target's
`enable_send` / `enable_receive` flags. -/
theorem C5_cross_broadcast_single_target (st : SysState) (env : Env)
    (bi : BroadcastInfo) (cfg : BotConfig) (first : Segment)
    (rest : List Segment) (conn : Option Connector)
    (hcfg : st.config = some cfg)
    (hen : st.enable = true)
    (het : bi.event_type = "message")
    (hmsg : bi.message = first :: rest)
    (hty : first.type = "text")
    (hsrc : effectiveSource bi = cfg.qq_source_name.getD "QQ")
    (hpre : pyStartsWith (pyStrip (segText first))
      (cfg.commandPrefix ++ cfg.mc_command.getD "mc") = true)
    (hgc : env.get_connector (cfg.mc_source_name.getD "Minecraft") = .ok conn)
    (hok : ∀ p t, env.broadcastFails p t = none)
    (hne : cfg.mc_source_name.getD "Minecraft" ≠ cfg.qq_source_name.getD "QQ") :
    match conn with
    | some c =>
      if c.enable then
        (cross_process st env bi).out = .ok true ∧
        (cross_process st env bi).calls =
          [⟨cross_pinfo bi (strip_command bi.message
              (cfg.commandPrefix ++ cfg.mc_command.getD "mc")),
            .incl [cfg.mc_source_name.getD "Minecraft"]⟩] ∧
        effectiveSource bi ∉ ([cfg.mc_source_name.getD "Minecraft"] : List String)
      else (cross_process st env bi).out = .ok false ∧
        (cross_process st env bi).calls = []
    | none => (cross_process st env bi).out = .ok false ∧
        (cross_process st env bi).calls = [] := by
  have hred := cross_reaches_mc st env bi cfg first rest hcfg hen het hmsg hty hsrc hpre
  have hsend := cross_send_spec st env bi
    (strip_command bi.message (cfg.commandPrefix ++ cfg.mc_command.getD "mc"))
    (cfg.mc_source_name.getD "Minecraft") conn hgc hok
  rcases conn with _ | c
  · rw [hred, hsend]
    exact ⟨rfl, rfl⟩
  · by_cases hc : c.enable
    · simp only [hc, if_true] at hsend ⊢
      rw [hred, hsend]
      refine ⟨rfl, rfl, ?_⟩
      simp only [hsrc, List.mem_singleton]
      exact fun h => hne h.symm
    · simp only [eq_false_of_ne_true hc, if_false] at hsend ⊢
      rw [hred, hsend]
      exact ⟨rfl, rfl⟩

/-- The Cross-Broadcast system, enabled, with the default configuration. -/
def exStCross : SysState := ⟨"cross_broadcast", true, some exCfg⟩

/-- A QQ group message `"#mc ping"`. -/
def exBiMC : BroadcastInfo :=
  { exBi with message := [MessageBuilder.text "#mc ping"] }

/-- C5 (witness): `#mc ping` from QQ is relayed exactly once with
`include=["Minecraft"]` and the dispatch reports handled. -/
theorem C5_witness :
    (cross_process exStCross exEnv exBiMC).out = .ok true ∧
    (cross_process exStCross exEnv exBiMC).calls =
      [⟨cross_pinfo exBiMC [MessageBuilder.text "ping"], .incl ["Minecraft"]⟩] := by
  have h := C5_cross_broadcast_single_target exStCross exEnv exBiMC exCfg
    (MessageBuilder.text "#mc ping") [] (some ⟨"Minecraft", true, true, true⟩)
    rfl rfl rfl rfl rfl rfl (by decide) rfl (fun _ _ => rfl) (by decide)
  exact ⟨h.1, h.2.1⟩

/-! ## C6 -/

/-- `pyIsEmpty` detects exactly the empty string. -/
lemma pyIsEmpty_iff (s : String) : pyIsEmpty s = true ↔ s = "" := by
  cases s with
  | mk data => cases data <;> simp [pyIsEmpty, String.ext_iff]

/-- C6: prefix stripping matches the reference outputs — `"#mc hello"`
stripped of `"#mc"` is the single text segment `"hello"`, `"#mc"` alone
becomes the single one-space text segment — and in general: the result is
never empty; when the trimmed remainder is empty the first segment is
dropped (with the one-space segment substituted if that empties the
sequence); when it is non-empty the first segment's text is replaced and
all later segments are preserved unchanged and in order. -/
theorem C6_strip_command_spec :
    (strip_command [MessageBuilder.text "#mc hello"] "#mc" =
      [MessageBuilder.text "hello"]) ∧
    (strip_command [MessageBuilder.text "#mc"] "#mc" =
      [MessageBuilder.text " "]) ∧
    (∀ (first : Segment) (rest : List Segment) (cmd : String),
      strip_command (first :: rest) cmd ≠ []) ∧
    (∀ (first : Segment) (rest : List Segment) (cmd : String),
      (pyStrip (pyDrop (segText first) (pyLength cmd)) = "" →
        strip_command (first :: rest) cmd =
          if rest.isEmpty then [⟨"text", [("text", " ")]⟩] else rest) ∧
      (pyStrip (pyDrop (segText first) (pyLength cmd)) ≠ "" →
        strip_command (first :: rest) cmd =
          { type := first.type,
            data := alistSet first.data "text"
              (pyStrip (pyDrop (segText first) (pyLength cmd))) } :: rest)) := by
  refine ⟨by decide, by decide, ?_, ?_⟩
  · intro first rest cmd
    unfold strip_command
    simp only []
    split
    · split <;> simp_all
    · simp
  · intro first rest cmd
    constructor
    · intro h
      have hg : pyIsEmpty (pyStrip (pyDrop (segText first) (pyLength cmd))) = true :=
        pyIsEmpty_iff _ |>.mpr h
      unfold strip_command
      simp only [hg]
      cases rest <;> simp
    · intro h
      have hf : pyIsEmpty (pyStrip (pyDrop (segText first) (pyLength cmd))) = false := by
        rcases hb : pyIsEmpty (pyStrip (pyDrop (segText first) (pyLength cmd))) with _ | _
        · rfl
        · exact absurd (pyIsEmpty_iff _ |>.mp hb) h
      unfold strip_command
      simp only [hf]
      simp

/-- C6 (witness): stripping with a preserved tail segment, a dropped first
segment, and the never-empty guarantee, at concrete inputs. -/
theorem C6_witness :
    strip_command [MessageBuilder.text "#mc hi", MessageBuilder.at "9"] "#mc" =
      [MessageBuilder.text "hi", MessageBuilder.at "9"] ∧
    strip_command [MessageBuilder.text "#mc", MessageBuilder.at "9"] "#mc" =
      [MessageBuilder.at "9"] ∧
    strip_command [MessageBuilder.text "#mc"] "#mc" ≠ [] :=
  ⟨by decide,
   (C6_strip_command_spec.2.2.2 (MessageBuilder.text "#mc")
      [MessageBuilder.at "9"] "#mc").1 (by decide),
   C6_strip_command_spec.2.2.1 (MessageBuilder.text "#mc") [] "#mc"⟩

/-! ## C7 -/

/-- With a config present, `reply` issues exactly one call, whose `target`
map is the base origin-derived entry plus the bridge entry when the
bridge condition holds. -/
lemma reply_call_target (st : SysState) (env : Env) (bi : BroadcastInfo)
    (msg : List Segment) (cfg : BotConfig) (hcfg : st.config = some cfg) :
    (reply st env bi msg).calls.map (fun c => c.pinfo.target) =
      [if bi.receiver_source == some (cfg.bridge_source_name.getD "Bridge") &&
          !bi.source.is_from (cfg.bridge_source_name.getD "Bridge") then
        alistSet [(target_key bi, bi.event_sub_type)]
          (cfg.bridge_source_name.getD "Bridge") bi.event_sub_type
      else [(target_key bi, bi.event_sub_type)]] := by
  simp only [reply, hcfg]
  split <;> rfl

/-- The origin-derived target key can never be the non-numeric label
`"Bridge"` when the origin is not the bridge. -/
lemma target_key_ne_bridge (bi : BroadcastInfo)
    (hor : bi.source.origin ≠ "Bridge") : target_key bi ≠ "Bridge" := by
  rcases hsi : bi.source_id with _ | s
  · simpa [target_key, hsi] using hor
  · simp only [target_key, hsi]
    split
    · rename_i hd
      intro he
      subst he
      exact absurd hd (by decide)
    · exact hor

/-- C7: when `receiver_source` names the configured bridge (`"Bridge"`) and
the true origin is not that bridge, `reply`'s target map has exactly the
two keys (origin-derived key, `"Bridge"`), both mapped to
`event_sub_type`; with no `receiver_source`, or when the origin is the
bridge itself, only the single origin-derived key. -/
theorem C7_reply_bridge_targeting (st : SysState) (env : Env)
    (bi : BroadcastInfo) (msg : List Segment) (cfg : BotConfig)
    (hcfg : st.config = some cfg)
    (hb : cfg.bridge_source_name.getD "Bridge" = "Bridge")
    (hcoh : ∀ n, bi.source.is_from n = (bi.source.origin == n)) :
    (bi.receiver_source = some "Bridge" → bi.source.is_from "Bridge" = false →
      (reply st env bi msg).calls.map (fun c => c.pinfo.target) =
        [[(target_key bi, bi.event_sub_type), ("Bridge", bi.event_sub_type)]]) ∧
    (bi.receiver_source = none →
      (reply st env bi msg).calls.map (fun c => c.pinfo.target) =
        [[(target_key bi, bi.event_sub_type)]]) ∧
    (bi.source.is_from "Bridge" = true →
      (reply st env bi msg).calls.map (fun c => c.pinfo.target) =
        [[(target_key bi, bi.event_sub_type)]]) := by
  have hct := reply_call_target st env bi msg cfg hcfg
  refine ⟨?_, ?_, ?_⟩
  · intro h1 h2
    have hor : bi.source.origin ≠ "Bridge" := by
      intro he
      have h' := hcoh "Bridge"
      rw [h2, he] at h'
      simp at h'
    have hne := target_key_ne_bridge bi hor
    rw [hct]
    simp only [hb, h1, h2]
    simp [alistSet, hne]
  · intro h1
    rw [hct]
    simp [h1]
  · intro h1
    rw [hct]
    simp [hb, h1]

/-- A QQ group message proxied in through the bridge connector. -/
def exBiBridge : BroadcastInfo :=
  { exBi with
    source := ⟨"QQ", fun n => "QQ" == n⟩
    receiver_source := some "Bridge" }

/-- C7 (witness): with `receiver_source = "Bridge"` and a QQ origin, the
reply targets both the numeric origin key and the bridge, both under
`"group"`; without `receiver_source`, only the origin key. -/
theorem C7_witness :
    (reply exStBound exEnv exBiBridge [MessageBuilder.text "ok"]).calls.map
        (fun c => c.pinfo.target) =
      [[("777", "group"), ("Bridge", "group")]] ∧
    (reply exStBound exEnv { exBiBridge with receiver_source := none }
        [MessageBuilder.text "ok"]).calls.map (fun c => c.pinfo.target) =
      [[("777", "group")]] :=
  ⟨(C7_reply_bridge_targeting exStBound exEnv exBiBridge
      [MessageBuilder.text "ok"] exCfg rfl rfl (fun _ => rfl)).1 rfl rfl,
   (C7_reply_bridge_targeting exStBound exEnv
      { exBiBridge with receiver_source := none }
      [MessageBuilder.text "ok"] exCfg rfl rfl (fun _ => rfl)).2.1 rfl⟩

/-! ## C8 -/

/-- A dispatch that reports the message handled went through
`_handle_switch`. -/
lemma hed_handled_is_switch (st : SysState) (env : Env) (bi : BroadcastInfo)
    (h : (handle_enable_disable st env bi).out = .ok true) :
    ∃ v, handle_enable_disable st env bi = handle_switch st env bi v := by
  rcases hed_cases st env bi with ⟨e, he⟩ | he | ⟨v, he⟩
  · rw [he] at h; simp at h
  · rw [he] at h; simp at h
  · exact ⟨v, he⟩

/-- `reply` never changes the system state. -/
lemma reply_st (st : SysState) (env : Env) (bi : BroadcastInfo)
    (msg : List Segment) : (reply st env bi msg).st = st := by
  unfold reply
  split
  · rfl
  · simp only []
    split <;> rfl

/-- With a config present, `reply` attempts exactly one outbound call. -/
lemma reply_one_call (st : SysState) (env : Env) (bi : BroadcastInfo)
    (msg : List Segment) (cfg : BotConfig) (hcfg : st.config = some cfg) :
    (reply st env bi msg).calls.length = 1 := by
  unfold reply
  rw [hcfg]
  simp only []
  split <;> rfl

/-- After writing the flag into an existing `system`-section entry, the
lookup returns exactly the written flag. -/
lemma lookup_map_set (l : List (String × SystemEntry)) (name : String)
    (v : Bool) (h : (l.lookup name).isSome) :
    (l.map (fun p => if p.1 = name then (p.1, { p.2 with enable := some v }) else p)).lookup
      name = some ⟨some v⟩ := by
  induction l with
  | nil => simp at h
  | cons p t ih =>
    rcases p with ⟨k, e⟩
    by_cases hk : k = name
    · subst hk
      simp [List.lookup_cons]
    · rw [List.lookup_cons] at h
      have hbeq : (name == k) = false := by
        simp only [beq_eq_false_iff_ne, ne_eq]
        exact fun he => hk he.symm
      rw [hbeq] at h
      simp only [List.map_cons, if_neg hk, List.lookup_cons, hbeq]
      exact ih h

/-- `_handle_switch` with a config entry present: it persists, and the
persisted configuration makes any freshly constructed system read the new
flag. -/
lemma handle_switch_persists (st : SysState) (env : Env) (bi : BroadcastInfo)
    (v : Bool) (cfg : BotConfig)
    (hcfg : st.config = some cfg)
    (hentry : (cfg.system_section.lookup st.name).isSome) :
    (handle_switch st env bi v).saved = true ∧
    (handle_switch st env bi v).st.enable = v ∧
    ∀ d, init_enable st.name d (handle_switch st env bi v).st.config = v := by
  have hsv : save_enable_state st.name v st.config =
      (some { cfg with
        system_section := cfg.system_section.map
          (fun p => if p.1 = st.name then (p.1, { p.2 with enable := some v }) else p) },
       true) := by
    rw [hcfg]
    simp only [save_enable_state]
    rw [if_pos hentry]
  unfold handle_switch
  simp only [hsv]
  rw [reply_st]
  refine ⟨?_, ?_, fun d => ?_⟩
  · trivial
  · rfl
  · simp only [init_enable, BotConfig.systemEnable]
    rw [lookup_map_set cfg.system_section st.name v hentry]
    rfl

/-- An Echo system whose configuration has an entry for `"echo"`. -/
def exCfgE : BotConfig := { system_section := [("echo", ⟨some true⟩)] }

/-- The Echo system over `exCfgE`. -/
def exStEchoE : SysState := ⟨"echo", true, some exCfgE⟩

/-- C8 (counterexample): `handle_enable_disable` processes a valid admin
`#echo disable` command (returns `true`, flag now `false`), yet nothing is
saved because the config's `system` section has no `"echo"` entry, and a
freshly constructed system reading the same configuration still reports
`true`. -/
theorem C8_counterexample :
    (handle_enable_disable exStEcho exEnv exBiEchoSwitch).out = .ok true ∧
    (handle_enable_disable exStEcho exEnv exBiEchoSwitch).st.enable = false ∧
    (handle_enable_disable exStEcho exEnv exBiEchoSwitch).saved = false ∧
    init_enable "echo" true
      (handle_enable_disable exStEcho exEnv exBiEchoSwitch).st.config = true :=
  ⟨rfl, rfl, rfl, rfl⟩

/-- C8 (amended): when the configuration's `system` section has an entry
for the System's name, a handled enable/disable command persists the new
flag: `config.save()` runs and a freshly constructed system reading the
resulting configuration reports the new enable state. -/
theorem C8_enable_toggle_persisted (st : SysState) (env : Env)
    (bi : BroadcastInfo) (cfg : BotConfig)
    (hcfg : st.config = some cfg)
    (hentry : (cfg.system_section.lookup st.name).isSome)
    (h : (handle_enable_disable st env bi).out = .ok true) :
    (handle_enable_disable st env bi).saved = true ∧
    ∀ d, init_enable st.name d (handle_enable_disable st env bi).st.config =
      (handle_enable_disable st env bi).st.enable := by
  obtain ⟨v, he⟩ := hed_handled_is_switch st env bi h
  rw [he]
  obtain ⟨h1, h2, h3⟩ := handle_switch_persists st env bi v cfg hcfg hentry
  exact ⟨h1, fun d => by rw [h3 d, h2]⟩

/-- C8 (witness): with the `"echo"` entry present, the admin disable
command saves, and a fresh system reads the new (disabled) state. -/
theorem C8_witness :
    (handle_enable_disable exStEchoE exEnv exBiEchoSwitch).out = .ok true ∧
    (handle_enable_disable exStEchoE exEnv exBiEchoSwitch).saved = true ∧
    (handle_enable_disable exStEchoE exEnv exBiEchoSwitch).st.enable = false ∧
    init_enable "echo" true
        (handle_enable_disable exStEchoE exEnv exBiEchoSwitch).st.config =
      (handle_enable_disable exStEchoE exEnv exBiEchoSwitch).st.enable :=
  ⟨rfl,
   (C8_enable_toggle_persisted exStEchoE exEnv exBiEchoSwitch exCfgE rfl rfl rfl).1,
   rfl,
   (C8_enable_toggle_persisted exStEchoE exEnv exBiEchoSwitch exCfgE rfl rfl rfl).2 true⟩

/-! ## C10 -/

/-- The Echo system constructed with no config object. -/
def exStEchoNC : SysState := ⟨"echo", true, none⟩

/-- C10 (counterexample): with no config object, invoking the switch
handler flips the in-memory flag but the confirmation reply is NOT sent:
the reply helper's config access raises before any
`broadcast_processed_info` call, and the exception escapes. -/
theorem C10_counterexample :
    (handle_switch exStEchoNC exEnv exBi false).st.enable = false ∧
    (handle_switch exStEchoNC exEnv exBi false).saved = false ∧
    (handle_switch exStEchoNC exEnv exBi false).calls = [] ∧
    (handle_switch exStEchoNC exEnv exBi false).out =
      .error "AttributeError: NoneType has no attribute get_keys" :=
  ⟨rfl, rfl, rfl, rfl⟩

/-- C10 (amended): every invocation of the switch handler sets the
in-memory flag to the requested value; with no config object the save step
and the reply are both skipped (the reply's config access raises); with a
config object the confirmation reply is attempted (exactly one outbound
call) while the save step is still silently skipped whenever the `system`
section has no entry for this System's name. -/
theorem C10_switch_not_transactional (st : SysState) (env : Env)
    (bi : BroadcastInfo) (v : Bool) :
    (handle_switch st env bi v).st.enable = v ∧
    (st.config = none →
      (handle_switch st env bi v).saved = false ∧
      (handle_switch st env bi v).calls = [] ∧
      (handle_switch st env bi v).out =
        .error "AttributeError: NoneType has no attribute get_keys") ∧
    (∀ cfg, st.config = some cfg →
      (handle_switch st env bi v).calls.length = 1 ∧
      (cfg.system_section.lookup st.name = none →
        (handle_switch st env bi v).saved = false)) := by
  refine ⟨?_, ?_, ?_⟩
  · unfold handle_switch
    simp only []
    rw [reply_st]
  · intro hc
    have hsv : save_enable_state st.name v st.config = (none, false) := by
      rw [hc]
      simp [save_enable_state]
    unfold handle_switch
    simp only [hsv]
    unfold reply
    simp only []
    refine ⟨?_, ?_, ?_⟩ <;> trivial
  · intro cfg hc
    rcases hlk : cfg.system_section.lookup st.name with _ | e
    · have hsv : save_enable_state st.name v st.config = (some cfg, false) := by
        rw [hc]
        simp only [save_enable_state]
        rw [if_neg (by simp [hlk])]
      unfold handle_switch
      simp only [hsv]
      exact ⟨reply_one_call _ env bi _ cfg rfl, fun _ => by trivial⟩
    · have hsv : save_enable_state st.name v st.config =
          (some { cfg with
            system_section := cfg.system_section.map
              (fun p => if p.1 = st.name then (p.1, { p.2 with enable := some v }) else p) },
           true) := by
        rw [hc]
        simp only [save_enable_state]
        rw [if_pos (by simp [hlk])]
      unfold handle_switch
      simp only [hsv]
      refine ⟨reply_one_call _ env bi _ _ rfl, fun hnone => ?_⟩
      exact absurd hnone (by simp)

/-- C10 (witness): with a config whose `system` section lacks the `"echo"`
entry, the switch handler flips the flag, sends exactly one reply, and
saves nothing. -/
theorem C10_witness :
    (handle_switch exStEcho exEnv exBi false).st.enable = false ∧
    (handle_switch exStEcho exEnv exBi false).calls.length = 1 ∧
    (handle_switch exStEcho exEnv exBi false).saved = false :=
  ⟨(C10_switch_not_transactional exStEcho exEnv exBi false).1,
   ((C10_switch_not_transactional exStEcho exEnv exBi false).2.2 exCfg rfl).1,
   ((C10_switch_not_transactional exStEcho exEnv exBi false).2.2 exCfg rfl).2 rfl⟩

/-! ## C9 -/

/-- For a non-`"message"` event the enable/disable handler declines
outright. -/
lemma hed_non_message (st : SysState) (env : Env) (bi : BroadcastInfo)
    (het : bi.event_type ≠ "message") :
    handle_enable_disable st env bi = { st := st, out := .ok false } := by
  have hic : is_command st bi = .ok false := by
    unfold is_command
    rw [if_pos het]
  unfold handle_enable_disable
  rw [hic]

/-- C9: for every inbound `BroadcastInfo` with `event_type ≠ "message"`,
each of Echo, Cross-Broadcast and Bound-Notice returns `false` from its
dispatch and attempts no outbound call (no relay and no reply). -/
theorem C9_non_message_ignored (st : SysState) (env : Env)
    (bi : BroadcastInfo) (bp : Bool) (cfg : BotConfig)
    (hcfg : st.config = some cfg)
    (het : bi.event_type ≠ "message") :
    ((echo_process st env bi).out = .ok false ∧ (echo_process st env bi).calls = []) ∧
    ((cross_process st env bi).out = .ok false ∧ (cross_process st env bi).calls = []) ∧
    ((bound_process st env bi bp).out = .ok false ∧ (bound_process st env bi bp).calls = []) := by
  have hh := hed_non_message st env bi het
  refine ⟨?_, ?_, ?_⟩
  · simp only [echo_process, hh]
    repeat' split
    all_goals
      first
      | exact ⟨rfl, rfl⟩
      | (rename_i hne; exact absurd het hne)
      | (rename_i heq; rw [hcfg] at heq; split at heq <;> simp at heq)
  · simp only [cross_process]
    rw [if_pos het]
    exact ⟨rfl, rfl⟩
  · simp only [bound_process]
    rw [if_pos het]
    exact ⟨rfl, rfl⟩

/-- A QQ notice event (non-message). -/
def exBiNotice : BroadcastInfo := { exBi with event_type := "notice" }

/-- C9 (witness): a `"notice"` event is ignored by all three systems. -/
theorem C9_witness :
    (echo_process exStEcho exEnv exBiNotice).out = .ok false ∧
    (cross_process exStEcho exEnv exBiNotice).calls = [] ∧
    (bound_process exStEcho exEnv exBiNotice true).out = .ok false :=
  ⟨(C9_non_message_ignored exStEcho exEnv exBiNotice true exCfg rfl (by decide)).1.1,
   (C9_non_message_ignored exStEcho exEnv exBiNotice true exCfg rfl (by decide)).2.1.2,
   (C9_non_message_ignored exStEcho exEnv exBiNotice true exCfg rfl (by decide)).2.2.1⟩
